import Mathlib

/-!
Shallow embedding of the Barclays-SAR case-analysis pipeline
(`src/models/case_input.py`, `src/components/data_parser.py`,
`src/components/rag_engine.py`, `src/components/llm_orchestrator.py`,
`src/components/audit_logger.py`, `src/utils/db_utils.py`, `src/main.py`).

Python floats are modelled by ℚ plus an explicit non-finite marker at the
validation boundary; strings by `String`, with Python-level operations
(strip, lower, substring membership) re-implemented over `List Char` so
that they are kernel-executable.  External collaborators (the vector
store, the text-generation backend, the md5 digest used by the
anonymizer and the regulatory data file) are parameters of the pipeline,
mirroring the spec's "external interfaces" section.
-/

namespace SAR

/-- Python float values as they cross the validation boundary: a finite
rational, or one of the non-finite values the validator rejects. -/
inductive PyFloat where
  | fin (q : ℚ)
  | nan
  | inf
  | ninf
deriving DecidableEq, Repr

/-- The `math.isnan(v) or math.isinf(v)` test in
`Transaction.amount_must_be_finite`, negated. -/
def PyFloat.isFinite : PyFloat → Bool
  | .fin _ => true
  | _ => false

/-- Whitespace test used by Python `str.strip` (ASCII fragment). -/
def isWs (c : Char) : Bool := c.isWhitespace

/-- Python `str.strip()` on a character list. -/
def stripChars (cs : List Char) : List Char :=
  ((cs.dropWhile isWs).reverse.dropWhile isWs).reverse

/-- Python `str.strip()`. -/
def pyStrip (s : String) : String := String.mk (stripChars s.data)

/-- Python truthiness test `not v or not v.strip()` used by the pydantic
validators: the string is empty or whitespace-only. -/
def pyBlank (s : String) : Bool := pyStrip s == ""

/-- Python `str.lower()` (ASCII fragment, which covers all keyword-table
entries and finding texts). -/
def pyLower (s : String) : String := String.mk (s.data.map Char.toLower)

/-- Does `cs` start with `sub`? (helper for Python substring membership) -/
def leadsWith : List Char → List Char → Bool
  | [], _ => true
  | _ :: _, [] => false
  | p :: ps, c :: cs => p == c && leadsWith ps cs

/-- Python `sub in s` on character lists. -/
def hasSub (sub : List Char) : List Char → Bool
  | [] => leadsWith sub []
  | c :: tl => if leadsWith sub (c :: tl) then true else hasSub sub tl

/-- Python `sub in s` for strings. -/
def pyIn (sub s : String) : Bool := hasSub sub.data s.data

/-- Python `sep.join(l)`. -/
def joinWith (sep : String) : List String → String
  | [] => ""
  | [x] => x
  | x :: y :: xs => x ++ sep ++ joinWith sep (y :: xs)

/-- Substring containment as a proposition (`sub` occurs inside `s`). -/
def strContainsSub (s sub : String) : Prop :=
  ∃ a b : List Char, s.data = a ++ sub.data ++ b

/-- Distinct elements in first-occurrence order: Python `dict`/`set`
insertion semantics (used for `set(...)` sizes and dict key iteration). -/
def dedupAux (seen : List String) : List String → List String
  | [] => []
  | x :: xs =>
    if seen.contains x then dedupAux seen xs
    else x :: dedupAux (x :: seen) xs

/-- Distinct strings of a list, first occurrences first. -/
def pyDistinct (l : List String) : List String := dedupAux [] l

/-- Floor of a rational as an executable integer (`num.fdiv den`). -/
def ratFloor (q : ℚ) : ℤ := q.num.fdiv (q.den : ℤ)

/-- Python float `a % b` for `b > 0`: `a - b * floor(a / b)`. -/
def ratMod (a b : ℚ) : ℚ := a - b * (ratFloor (a / b) : ℚ)

/-- Round to nearest integer, ties to even — the tie rule of Python float
formatting. -/
def roundHalfEven (q : ℚ) : ℤ :=
  let f := ratFloor q
  let r := q - (f : ℚ)
  if r < 1 / 2 then f
  else if 1 / 2 < r then f + 1
  else if f % 2 = 0 then f else f + 1

/-- Decimal digits of a natural number. -/
def natDigitStr (n : Nat) : String := String.mk (Nat.toDigits 10 n)

/-- Insert thousands separators into a reversed digit list
(`i` counts digits already emitted). -/
def insertCommasRev : List Char → Nat → List Char
  | [], _ => []
  | d :: ds, i =>
    if i != 0 && i % 3 == 0 then ',' :: d :: insertCommasRev ds (i + 1)
    else d :: insertCommasRev ds (i + 1)

/-- A natural number with comma thousands grouping, as in
Python `{n:,.0f}` formatting of the integer part. -/
def natCommaStr (n : Nat) : String :=
  String.mk ((insertCommasRev (Nat.toDigits 10 n).reverse 0).reverse)

/-- Two decimal digits, zero padded. -/
def pad2Frac (m : Nat) : String :=
  if m < 10 then "0" ++ natDigitStr m else natDigitStr m

/-- Python `{q:,.2f}` formatting of a float modelled as a rational. -/
def fmtComma2 (q : ℚ) : String :=
  let c : ℤ := roundHalfEven (q * 100)
  let n := c.natAbs
  (if c < 0 then "-" else "") ++ natCommaStr (n / 100) ++ "." ++ pad2Frac (n % 100)

/-- Python `{q:,.0f}` formatting. -/
def fmtComma0 (q : ℚ) : String :=
  let c : ℤ := roundHalfEven q
  (if c < 0 then "-" else "") ++ natCommaStr c.natAbs

/-- Python `{q:.1f}` formatting. -/
def fmtFixed1 (q : ℚ) : String :=
  let c : ℤ := roundHalfEven (q * 10)
  let n := c.natAbs
  (if c < 0 then "-" else "") ++ natDigitStr (n / 10) ++ "." ++ natDigitStr (n % 10)

/-- An integer in decimal, as Python `str(int)`. -/
def intStr (i : ℤ) : String :=
  (if i < 0 then "-" else "") ++ natDigitStr i.natAbs

/-! ## Data model (`src/models/case_input.py`) -/

/-- A validated transaction (post-pydantic): amount is finite, date
trimmed and non-empty. -/
structure Transaction where
  date : String
  amount : ℚ
  currency : String := "INR"
  type : String
  originator : String
  beneficiary : String
  description : String := ""
deriving Repr, DecidableEq

/-- Validated customer profile. -/
structure CustomerInfo where
  name : String
  account_number : String
  kyc_risk_rating : String := "Medium"
  occupation : String := ""
  account_open_date : String := ""
  expected_monthly_volume : ℚ := 0
  declared_income : ℚ := 0
  address : String := ""
  pan_number : String := ""
deriving Repr, DecidableEq

/-- Validated case. -/
structure CaseInput where
  case_id : String
  customer : CustomerInfo
  transactions : List Transaction
  alert_reason : String
  investigation_notes : String := ""
  alert_date : String := ""
  assigned_analyst : String := "system"
deriving Repr, DecidableEq

/-- Raw (pre-validation) transaction: the amount may be non-finite. -/
structure RawTransaction where
  date : String
  amount : PyFloat
  currency : String := "INR"
  type : String
  originator : String
  beneficiary : String
  description : String := ""
deriving Repr, DecidableEq

/-- Raw customer record (fields without validators pass through). -/
structure RawCustomer where
  name : String
  account_number : String
  kyc_risk_rating : String := "Medium"
  occupation : String := ""
  account_open_date : String := ""
  expected_monthly_volume : ℚ := 0
  declared_income : ℚ := 0
  address : String := ""
  pan_number : String := ""
deriving Repr, DecidableEq

/-- Raw case document as submitted to the pipeline. -/
structure RawCase where
  case_id : String
  customer : RawCustomer
  transactions : List RawTransaction
  alert_reason : String
  investigation_notes : String := ""
  alert_date : String := ""
  assigned_analyst : String := "system"
deriving Repr, DecidableEq

/-- The pydantic field validators of `Transaction`: date non-blank
(stripped), amount finite. -/
def validateTransaction (t : RawTransaction) : Except String Transaction :=
  if pyBlank t.date then .error "Transaction date cannot be empty"
  else
    match t.amount with
    | .fin q =>
        .ok { date := pyStrip t.date, amount := q, currency := t.currency,
              type := t.type, originator := t.originator,
              beneficiary := t.beneficiary, description := t.description }
    | _ => .error "Transaction amount must be a finite number"

/-- The pydantic field validators of `CustomerInfo`: name and account
number non-blank (stripped). -/
def validateCustomer (c : RawCustomer) : Except String CustomerInfo :=
  if pyBlank c.name then .error "Customer name cannot be empty"
  else if pyBlank c.account_number then .error "Account number cannot be empty"
  else
    .ok { name := pyStrip c.name, account_number := pyStrip c.account_number,
          kyc_risk_rating := c.kyc_risk_rating, occupation := c.occupation,
          account_open_date := c.account_open_date,
          expected_monthly_volume := c.expected_monthly_volume,
          declared_income := c.declared_income, address := c.address,
          pan_number := c.pan_number }

/-- Element-wise validation of the transaction list (pydantic validates
each item; the first failure rejects the document). -/
def validateTransactions : List RawTransaction → Except String (List Transaction)
  | [] => .ok []
  | t :: ts =>
    match validateTransaction t with
    | .error e => .error e
    | .ok v =>
      match validateTransactions ts with
      | .error e => .error e
      | .ok vs => .ok (v :: vs)

/-- The pydantic validation of `CaseInput`: case id non-blank, customer
valid, transaction list non-empty and element-wise valid, alert reason
non-blank.  Any failure rejects the whole document before the pipeline
starts. -/
def validateCase (r : RawCase) : Except String CaseInput :=
  if pyBlank r.case_id then .error "Case ID cannot be empty"
  else
    match validateCustomer r.customer with
    | .error e => .error e
    | .ok cust =>
      if r.transactions.isEmpty then .error "Transactions list cannot be empty"
      else
        match validateTransactions r.transactions with
        | .error e => .error e
        | .ok ts =>
          if pyBlank r.alert_reason then .error "Alert reason cannot be empty"
          else
            .ok { case_id := pyStrip r.case_id, customer := cust,
                  transactions := ts, alert_reason := pyStrip r.alert_reason,
                  investigation_notes := r.investigation_notes,
                  alert_date := r.alert_date,
                  assigned_analyst := r.assigned_analyst }

/-! ## Date handling (`datetime.strptime` with the two fixed formats) -/

/-- A parsed calendar date. -/
structure Ymd where
  y : Nat
  m : Nat
  d : Nat
deriving Repr, DecidableEq

/-- Gregorian leap-year rule. -/
def isLeap (y : Nat) : Bool := y % 4 == 0 && (y % 100 != 0 || y % 400 == 0)

/-- Days in a month (1-12) of year `y`. -/
def daysInMonth (y m : Nat) : Nat :=
  if m == 2 then (if isLeap y then 29 else 28)
  else if m == 4 || m == 6 || m == 9 || m == 11 then 30
  else 31

/-- `datetime` range/validity check (`MINYEAR = 1`, real calendar day). -/
def mkValidDate (y m d : Nat) : Option Ymd :=
  if 1 ≤ y ∧ y ≤ 9999 ∧ 1 ≤ m ∧ m ≤ 12 ∧ 1 ≤ d ∧ d ≤ daysInMonth y m then
    some ⟨y, m, d⟩
  else none

/-- All characters are ASCII digits. -/
def allDigits (cs : List Char) : Bool := cs.all (fun c => c.isDigit)

/-- Numeric value of a digit string. -/
def digitsToNat (cs : List Char) : Nat :=
  cs.foldl (fun a c => a * 10 + (c.toNat - 48)) 0

/-- Split a character list on a separator character. -/
def splitOnChar (sep : Char) : List Char → List (List Char)
  | [] => [[]]
  | c :: cs =>
    let r := splitOnChar sep cs
    if c == sep then [] :: r
    else
      match r with
      | [] => [[c]]
      | g :: gs => (c :: g) :: gs

/-- `datetime.strptime(s, "%Y-%m-%d")`: four year digits, one or two
month and day digits, full-string match, validated calendar date. -/
def strptimeYmd (s : String) : Option Ymd :=
  match splitOnChar '-' s.data with
  | [a, b, c] =>
    if a.length == 4 && allDigits a &&
       decide (1 ≤ b.length) && b.length ≤ 2 && allDigits b &&
       decide (1 ≤ c.length) && c.length ≤ 2 && allDigits c then
      mkValidDate (digitsToNat a) (digitsToNat b) (digitsToNat c)
    else none
  | _ => none

/-- `datetime.strptime(s, "%d-%m-%Y")`. -/
def strptimeDmy (s : String) : Option Ymd :=
  match splitOnChar '-' s.data with
  | [a, b, c] =>
    if decide (1 ≤ a.length) && a.length ≤ 2 && allDigits a &&
       decide (1 ≤ b.length) && b.length ≤ 2 && allDigits b &&
       c.length == 4 && allDigits c then
      mkValidDate (digitsToNat c) (digitsToNat b) (digitsToNat a)
    else none
  | _ => none

/-- The two-format date parse of `calculate_transaction_stats`: try
`%Y-%m-%d`, then `%d-%m-%Y`; dates matching neither are dropped. -/
def tryParseDate (s : String) : Option Ymd :=
  match strptimeYmd s with
  | some d => some d
  | none => strptimeDmy s

/-- Day number of a civil date (days since 1970-01-01, standard civil
calendar algorithm); only differences of day numbers are used. -/
def dayNum (x : Ymd) : ℤ :=
  let y := if x.m ≤ 2 then x.y - 1 else x.y
  let era := y / 400
  let yoe := y % 400
  let mp := (x.m + 9) % 12
  let doy := (153 * mp + 2) / 5 + (x.d - 1)
  let doe := yoe * 365 + yoe / 4 - yoe / 100 + doy
  (era * 146097 + doe : ℤ) - 719468

/-- Chronologically earliest date of a list (`min(dates)`). -/
def minYmd : List Ymd → Ymd
  | [] => ⟨1, 1, 1⟩
  | x :: xs => xs.foldl (fun a b => if dayNum b < dayNum a then b else a) x

/-- Chronologically latest date of a list (`max(dates)`). -/
def maxYmd : List Ymd → Ymd
  | [] => ⟨1, 1, 1⟩
  | x :: xs => xs.foldl (fun a b => if dayNum a < dayNum b then b else a) x

/-- Left-pad a digit string with zeros to width `w`. -/
def padZero (w : Nat) (s : String) : String :=
  String.mk (List.replicate (w - s.length) '0') ++ s

/-- `strftime("%Y-%m-%d")`. -/
def fmtYmd (x : Ymd) : String :=
  padZero 4 (natDigitStr x.y) ++ "-" ++ padZero 2 (natDigitStr x.m) ++ "-" ++
    padZero 2 (natDigitStr x.d)

/-! ## Statistics engine (`DataParser.calculate_transaction_stats`) -/

/-- The statistics record (the Python dict, with fixed fields). -/
structure TransactionStats where
  total_transactions : Nat
  total_volume : ℚ
  total_credits : ℚ
  total_debits : ℚ
  credit_count : Nat
  debit_count : Nat
  avg_amount : ℚ
  max_amount : ℚ
  min_amount : ℚ
  date_range_start : String
  date_range_end : String
  date_range_days : ℤ
  transaction_types : List (String × Nat)
  currency : String
  unique_originators : Nat
  unique_beneficiaries : Nat
deriving Repr, DecidableEq

/-- `collections.Counter` over a string list, insertion-ordered. -/
def bumpCount : List (String × Nat) → String → List (String × Nat)
  | [], s => [(s, 1)]
  | (k, n) :: rest, s =>
    if k == s then (k, n + 1) :: rest else (k, n) :: bumpCount rest s

/-- Per-type transaction counts (`Counter(t.type for t in transactions)`). -/
def countTypes (l : List String) : List (String × Nat) := l.foldl bumpCount []

/-- `max(l)` guarded by `if l else 0.0`. -/
def qListMax : List ℚ → ℚ
  | [] => 0
  | x :: xs => xs.foldl max x

/-- `min(l)` guarded by `if l else 0.0`. -/
def qListMin : List ℚ → ℚ
  | [] => 0
  | x :: xs => xs.foldl min x

/-- `DataParser.calculate_transaction_stats`: degenerate all-zero/"N/A"
record on the empty list, otherwise the aggregate metrics. -/
def calculate_transaction_stats (transactions : List Transaction) : TransactionStats :=
  match transactions with
  | [] =>
    { total_transactions := 0, total_volume := 0, total_credits := 0,
      total_debits := 0, credit_count := 0, debit_count := 0, avg_amount := 0,
      max_amount := 0, min_amount := 0, date_range_start := "N/A",
      date_range_end := "N/A", date_range_days := 0, transaction_types := [],
      currency := "INR", unique_originators := 0, unique_beneficiaries := 0 }
  | t0 :: _ =>
    let amounts := transactions.map (fun t => t.amount)
    let credits := transactions.filter (fun t => decide (0 < t.amount))
    let debits := transactions.filter (fun t => decide (t.amount < 0))
    let dates := transactions.filterMap (fun t => tryParseDate t.date)
    let date_range_start :=
      match dates with | [] => "N/A" | _ :: _ => fmtYmd (minYmd dates)
    let date_range_end :=
      match dates with | [] => "N/A" | _ :: _ => fmtYmd (maxYmd dates)
    let date_range_days : ℤ :=
      if 1 < dates.length then dayNum (maxYmd dates) - dayNum (minYmd dates) + 1
      else 1
    let abs_amounts := amounts.map (fun a => |a|)
    let total_volume := abs_amounts.sum
    { total_transactions := transactions.length,
      total_volume := total_volume,
      total_credits := (credits.map (fun t => t.amount)).sum,
      total_debits := (debits.map (fun t => |t.amount|)).sum,
      credit_count := credits.length,
      debit_count := debits.length,
      avg_amount :=
        if 0 < amounts.length then total_volume / (amounts.length : ℚ) else 0,
      max_amount := qListMax abs_amounts,
      min_amount := qListMin abs_amounts,
      date_range_start := date_range_start,
      date_range_end := date_range_end,
      date_range_days := date_range_days,
      transaction_types := countTypes (transactions.map (fun t => t.type)),
      currency := t0.currency,
      unique_originators := (pyDistinct (transactions.map (fun t => t.originator))).length,
      unique_beneficiaries := (pyDistinct (transactions.map (fun t => t.beneficiary))).length }

/-! ## Pattern detector (`DataParser.identify_patterns`) -/

/-- A pattern finding as a typed record; the source emits fully-formed
strings, reproduced by `Finding.render` (the spec explicitly allows the
typed-record restructuring as long as the text preserves the facts). -/
inductive Finding where
  | structuring (count : Nat)
  | volumeSpike (r : ℚ)
  | rapidMovement (date : String)
  | smallDeposits (count : Nat)
  | incomeMismatch (r : ℚ)
  | multipleOriginators (count : Nat) (days : ℤ)
  | roundNumber (count : Nat)
  | largeTransaction (currency : String) (amount : ℚ) (date : String)
  | highRiskTypes (count : Nat) (types : List String)
deriving Repr, DecidableEq

/-- The f-string of each pattern branch of `identify_patterns`. -/
def Finding.render : Finding → String
  | .structuring n =>
      "Structuring: " ++ natDigitStr n ++ " transactions just below INR " ++
        fmtComma0 1000000 ++ " reporting threshold"
  | .volumeSpike r =>
      "Volume spike: " ++ fmtFixed1 r ++ "x above expected monthly volume"
  | .rapidMovement d =>
      "Rapid movement: Credits and debits on same day (" ++ d ++ ")"
  | .smallDeposits n =>
      "Multiple small deposits: " ++ natDigitStr n ++ " deposits under INR 2,00,000"
  | .incomeMismatch r =>
      "Income mismatch: Transaction volume " ++ fmtFixed1 r ++
        "x declared annual income"
  | .multipleOriginators n days =>
      "Multiple originators: " ++ natDigitStr n ++ " unique sources in " ++
        intStr days ++ " days"
  | .roundNumber n =>
      "Round-number transactions: " ++ natDigitStr n ++
        " transactions in exact round amounts"
  | .largeTransaction cur amt d =>
      "Large transaction: " ++ cur ++ " " ++ fmtComma2 amt ++ " on " ++ d
  | .highRiskTypes n types =>
      "High-risk transfer types: " ++ natDigitStr n ++ " " ++
        joinWith ", " types ++ " transactions"

/-- Pattern 1 condition: `0 < amount < threshold and amount > threshold * 0.8`. -/
def nearThresholdTxn (t : Transaction) : Bool :=
  decide (0 < t.amount ∧ t.amount < 1000000 ∧ (1000000 : ℚ) * (8 / 10) < t.amount)

/-- Same-day credit sum for pattern 3. -/
def dayCredits (ts : List Transaction) (d : String) : ℚ :=
  ((ts.filter (fun t => t.date == d && decide (0 < t.amount))).map
    (fun t => t.amount)).sum

/-- Same-day debit sum for pattern 3 (`else` branch adds `abs(amount)`,
so zero amounts land here). -/
def dayDebits (ts : List Transaction) (d : String) : ℚ :=
  ((ts.filter (fun t => t.date == d && decide (¬ 0 < t.amount))).map
    (fun t => |t.amount|)).sum

/-- `DataParser.identify_patterns`: the nine order-fixed heuristics. -/
def identify_patterns (c : CaseInput) (stats : TransactionStats) : List Finding :=
  match c.transactions with
  | [] => []
  | _ :: _ =>
    let ts := c.transactions
    let near_threshold := ts.filter nearThresholdTxn
    let p1 : List Finding :=
      if 3 ≤ near_threshold.length then [.structuring near_threshold.length] else []
    let expected := c.customer.expected_monthly_volume
    let p2 : List Finding :=
      if 0 < expected ∧ 0 < stats.total_volume then
        (if 3 < stats.total_volume / expected then
          [.volumeSpike (stats.total_volume / expected)] else [])
      else []
    let p3 : List Finding :=
      ((pyDistinct (ts.map (fun t => t.date))).filter
        (fun d => decide (0 < dayCredits ts d ∧ 0 < dayDebits ts d))).map
        (fun d => .rapidMovement d)
    let small_deposits := ts.filter (fun t => decide (0 < t.amount ∧ t.amount < 200000))
    let p4 : List Finding :=
      if 5 ≤ small_deposits.length then [.smallDeposits small_deposits.length] else []
    let declared := c.customer.declared_income
    let p5 : List Finding :=
      if 0 < declared ∧ 0 < stats.total_volume then
        (if 2 < stats.total_volume / declared then
          [.incomeMismatch (stats.total_volume / declared)] else [])
      else []
    let p6 : List Finding :=
      if 10 < stats.unique_originators then
        [.multipleOriginators stats.unique_originators stats.date_range_days]
      else []
    let round_txns := ts.filter (fun t => decide (0 < t.amount ∧ ratMod t.amount 10000 = 0))
    let p7 : List Finding :=
      if 3 ≤ round_txns.length then [.roundNumber round_txns.length] else []
    let p8 : List Finding :=
      (ts.filter (fun t => decide ((5000000 : ℚ) ≤ |t.amount|))).map
        (fun t => .largeTransaction t.currency |t.amount| t.date)
    let hr_txns := ts.filter
      (fun t => t.type == "SWIFT" || t.type == "Wire Transfer" || t.type == "Hawala")
    let p9 : List Finding :=
      if hr_txns.isEmpty then []
      else [.highRiskTypes hr_txns.length (pyDistinct (hr_txns.map (fun t => t.type)))]
    p1 ++ p2 ++ p3 ++ p4 ++ p5 ++ p6 ++ p7 ++ p8 ++ p9

/-- The finding list as the source's strings. -/
def identify_patterns_text (c : CaseInput) (stats : TransactionStats) : List String :=
  (identify_patterns c stats).map Finding.render

/-! ## Risk scorer (`DataParser.calculate_risk_score`) -/

/-- `DataParser.calculate_risk_score`: additive terms, capped at 100. -/
def calculate_risk_score (patterns : List String) (stats : TransactionStats)
    (c : CaseInput) : ℤ :=
  let base : ℤ := min ((patterns.length : ℤ) * 10) 40
  let expected := c.customer.expected_monthly_volume
  let volTerm : ℤ :=
    if 0 < expected ∧ 0 < stats.total_volume then
      (let r := stats.total_volume / expected
       if 10 < r then 25 else if 5 < r then 15 else if 3 < r then 10 else 0)
    else 0
  let kycTerm : ℤ :=
    if c.customer.kyc_risk_rating = "High" then 15
    else if c.customer.kyc_risk_rating = "Medium" then 5
    else if c.customer.kyc_risk_rating = "Low" then 0
    else 5
  let cpTerm : ℤ :=
    if 20 < stats.unique_originators then 10
    else if 10 < stats.unique_originators then 5
    else 0
  min (base + volTerm + kycTerm + cpTerm) 100

/-! ## Typology classifier (`RAGEngine.identify_typology`) -/

/-- The fixed keyword-to-typology table of `identify_typology`. -/
def keyword_map : List (String × List String) :=
  [("structuring", ["structuring", "threshold", "smurfing", "below reporting"]),
   ("layering", ["layering", "multiple accounts", "rapid transfer", "cross-border"]),
   ("wire_fraud", ["wire", "swift", "remittance", "foreign"]),
   ("cash_business", ["cash", "retail", "business volume"]),
   ("identity_theft", ["identity", "kyc", "synthetic", "document"]),
   ("rapid_movement", ["rapid", "same day", "immediate transfer"]),
   ("round_tripping", ["round-trip", "foreign investment", "circular"])]

/-- `any(kw in combined_text for kw in keywords)`. -/
def anyKeywordIn (text : String) (kws : List String) : Bool :=
  kws.any (fun kw => pyIn kw text)

/-- Does some keyword-table entry for exactly this typology hit the
combined text?  (The closed form of the boost loop.) -/
def keywordBoosts (typology text : String) : Bool :=
  keyword_map.any (fun tk => tk.1 == typology && anyKeywordIn text tk.2)

/-- `RAGEngine.identify_typology`: the similarity store is a parameter
(query text to nearest "typology" document key and cosine distance, or
`none` when the store returns nothing). -/
def identify_typology (store : String → Option (String × ℚ))
    (patterns : List String) (alert_reason : String) : String × ℚ :=
  let query := "Patterns: " ++ joinWith "; " patterns ++ ". Alert: " ++ alert_reason
  match store query with
  | none => ("unknown", 0)
  | some td =>
    let confidence : ℚ := max 0 (min 100 ((1 - td.2) * 100))
    let combined_text := pyLower (alert_reason ++ " " ++ joinWith " " patterns)
    let confidence := keyword_map.foldl
      (fun conf tk =>
        if anyKeywordIn combined_text tk.2 then
          (if tk.1 == td.1 then min 100 (conf + 15) else conf)
        else conf)
      confidence
    (td.1, confidence)

/-- `RAGEngine.build_case_summary`. -/
def build_case_summary (c : CaseInput) (stats : TransactionStats)
    (patterns : List String) : String :=
  "Case " ++ c.case_id ++ ": " ++ c.alert_reason ++ "\nCustomer: " ++
    c.customer.occupation ++ ", KYC: " ++ c.customer.kyc_risk_rating ++
    "\nTransactions: " ++ natDigitStr stats.total_transactions ++ " totaling " ++
    stats.currency ++ " " ++ fmtComma2 stats.total_volume ++ "\nPatterns: " ++
    joinWith "; " patterns ++ "\nPeriod: " ++ stats.date_range_start ++ " to " ++
    stats.date_range_end

/-! ## Narrative composer (`LLMOrchestrator`) -/

/-- `LLMOrchestrator._build_prompt` with the in-source default user
template (the on-disk template files are not part of the repository
sources, so the `.format` call has every key and the simplified-prompt
branch is not taken). -/
def build_prompt (c : CaseInput) (patterns : List String) (typology : String)
    (risk_score : ℤ) : String :=
  let patterns_text := joinWith "\n" (patterns.map (fun p => "- " ++ p))
  "Generate a SAR narrative for case: " ++ c.case_id ++ "\nAlert: " ++
    c.alert_reason ++ "\nPatterns: " ++ patterns_text ++ "\nTypology: " ++
    typology ++ "\nRisk Score: " ++ intStr risk_score ++ "/100"

/-- `LLMOrchestrator._generate_fallback_narrative`: the deterministic
five-section template narrative. -/
def fallback_narrative (c : CaseInput) (stats : TransactionStats)
    (patterns : List String) (typology : String) : String :=
  let patterns_text := joinWith "\n" (patterns.map (fun p => "- " ++ p))
  "I. SUMMARY OF SUSPICIOUS ACTIVITY\n\nThis report is filed regarding suspicious transactions identified in the account of " ++
  c.customer.name ++
  " (Account: " ++
  c.customer.account_number ++
  "). A total of " ++
  natDigitStr stats.total_transactions ++
  " transactions totaling " ++
  stats.currency ++
  " " ++
  fmtComma2 stats.total_volume ++
  " were identified during the review period from " ++
  stats.date_range_start ++
  " to " ++
  stats.date_range_end ++
  ". The activity is consistent with " ++
  typology ++
  ".\n\nII. ACCOUNT AND CUSTOMER INFORMATION\n\nAccount holder " ++
  c.customer.name ++
  " maintains account " ++
  c.customer.account_number ++
  ", opened on " ++
  c.customer.account_open_date ++
  ". The customer's declared occupation is " ++
  c.customer.occupation ++
  " with expected monthly transaction volume of " ++
  stats.currency ++
  " " ++
  fmtComma2 c.customer.expected_monthly_volume ++
  ". Current KYC risk rating: " ++
  c.customer.kyc_risk_rating ++
  ".\n\nIII. DESCRIPTION OF SUSPICIOUS ACTIVITY\n\nAlert Reason: " ++
  c.alert_reason ++
  "\n\nTransaction Summary:\n- Total Volume: " ++
  stats.currency ++
  " " ++
  fmtComma2 stats.total_volume ++
  "\n- Transaction Count: " ++
  natDigitStr stats.total_transactions ++
  "\n- Date Range: " ++
  stats.date_range_start ++
  " to " ++
  stats.date_range_end ++
  "\n\nSuspicious Patterns:\n" ++
  patterns_text ++
  "\n\nIV. EXPLANATION OF SUSPICION\n\n" ++
  (if c.investigation_notes == "" then "No additional investigation notes provided."
   else c.investigation_notes) ++
  "\n\nThe identified patterns are consistent with " ++
  typology ++
  " typology under PMLA guidelines.\n\nV. CONCLUSION AND RECOMMENDATION\n\nBased on the analysis, this activity warrants reporting as a Suspicious Transaction Report (STR) under Section 12 of PMLA, 2002. The FIU-IND should be notified within the prescribed timeline. Enhanced monitoring is recommended for this account.\n\n[This narrative was generated using template fallback -- LLM was unavailable]\n"

/-- Skip a whitespace run (the `\s*` between header-pattern tokens). -/
def dropWs (cs : List Char) : List Char := cs.dropWhile isWs

/-- Case-insensitive literal match of one pattern token; returns the
remaining text on success. -/
def matchLit : List Char → List Char → Option (List Char)
  | [], cs => some cs
  | _ :: _, [] => none
  | p :: ps, c :: cs => if p.toLower == c.toLower then matchLit ps cs else none

/-- Match a full header pattern (tokens joined by `\s*`) at the start of
the text; returns the remaining text after the match. -/
def matchToks : List (List Char) → List Char → Option (List Char)
  | [], cs => some cs
  | [t], cs => matchLit t cs
  | t :: t2 :: ts, cs =>
    match matchLit t cs with
    | none => none
    | some rest => matchToks (t2 :: ts) (dropWs rest)

/-- `re.search` for a header pattern: leftmost match, returning
(start, end) character positions. -/
def searchFrom (toks : List (List Char)) : List Char → Nat → Option (Nat × Nat)
  | cs, i =>
    match matchToks toks cs with
    | some rest => some (i, i + (cs.length - rest.length))
    | none =>
      match cs with
      | [] => none
      | _ :: tl => searchFrom toks tl (i + 1)

/-- The five ordered header patterns of `_parse_narrative`, each a list
of literal tokens separated by `\s*` in the source regex. -/
def sectionHeaders : List (String × List String) :=
  [("I", ["I.", "SUMMARY", "OF", "SUSPICIOUS", "ACTIVITY"]),
   ("II", ["II.", "ACCOUNT", "AND", "CUSTOMER", "INFORMATION"]),
   ("III", ["III.", "DESCRIPTION", "OF", "SUSPICIOUS", "ACTIVITY"]),
   ("IV", ["IV.", "EXPLANATION", "OF", "SUSPICION"]),
   ("V", ["V.", "CONCLUSION"])]

/-- Search one header pattern in a text. -/
def findHeader (h : List String) (cs : List Char) : Option (Nat × Nat) :=
  searchFrom (h.map String.data) cs 0

/-- The section loop of `_parse_narrative`: each header is searched in
the full text; a section's body runs from its header's end to the next
header's match in the remaining text (or to the end). -/
def parseSections : List (String × List String) → List Char → List (String × String)
  | [], _ => []
  | (key, toks) :: rest, cs =>
    match findHeader toks cs with
    | none => parseSections rest cs
    | some se =>
      let endPos :=
        match rest with
        | [] => cs.length
        | (_, ntoks) :: _ =>
          match findHeader ntoks (cs.drop se.2) with
          | some ns => se.2 + ns.1
          | none => cs.length
      (key, String.mk (stripChars ((cs.drop se.2).take (endPos - se.2)))) ::
        parseSections rest cs

/-- `LLMOrchestrator._parse_narrative`: five-section split, collapsing
to a single section "I" holding the whole (stripped) text when no
header matches. -/
def parse_narrative (text : String) : List (String × String) :=
  match parseSections sectionHeaders text.data with
  | [] => [("I", pyStrip text)]
  | s :: ss => s :: ss

/-- A SAR narrative record (`src/models/sar_output.py`, the fields the
core pipeline fills). -/
structure SARNarrative where
  case_id : String
  narrative_text : String
  sects : List (String × String)
  confidence_score : ℤ
  typology : String
  red_flags : List String
  model_version : String
deriving Repr

/-- `LLMOrchestrator.generate_narrative`: try the generation backend,
fall back to the deterministic template narrative on any failure, then
parse sections.  The backend (`_call_ollama`) is the parameter `llm`. -/
def generate_narrative (llm : String → Except String String) (model : String)
    (c : CaseInput) (stats : TransactionStats) (patterns : List String)
    (typology : String) (risk_score : ℤ) : SARNarrative :=
  let prompt := build_prompt c patterns typology risk_score
  let narrative_text :=
    match llm prompt with
    | .ok response => response
    | .error _ => fallback_narrative c stats patterns typology
  { case_id := c.case_id, narrative_text := narrative_text,
    sects := parse_narrative narrative_text, confidence_score := risk_score,
    typology := typology, red_flags := patterns, model_version := model }

/-! ## Audit ledger (`AuditLogger`, `DatabaseManager`) -/

/-- One audit event (the dict built by `AuditLogger.log_event` / the
`sar_audit_trail` row); timestamps are abstract clock readings. -/
structure AuditEvent where
  case_id : String
  timestamp : Nat
  event_type : String
  user_id : String
  input_data : Option String := none
  retrieved_context : Option String := none
  llm_reasoning : Option String := none
  generated_output : Option String := none
  human_edits : Option String := none
  model_version : Option String := none
  confidence_score : Option ℚ := none
  metadata : Option String := none
deriving Repr, DecidableEq

/-- The arguments of one `log_event` call (everything but the
timestamp, which the clock supplies). -/
structure EventArgs where
  case_id : String
  event_type : String
  user_id : String := "system"
  input_data : Option String := none
  retrieved_context : Option String := none
  llm_reasoning : Option String := none
  generated_output : Option String := none
  human_edits : Option String := none
  model_version : Option String := none
  confidence_score : Option ℚ := none
  metadata : Option String := none
deriving Repr, DecidableEq

/-- The event record a `log_event` call creates. -/
def mkEvent (ts : Nat) (a : EventArgs) : AuditEvent :=
  { case_id := a.case_id, timestamp := ts, event_type := a.event_type,
    user_id := a.user_id, input_data := a.input_data,
    retrieved_context := a.retrieved_context, llm_reasoning := a.llm_reasoning,
    generated_output := a.generated_output, human_edits := a.human_edits,
    model_version := a.model_version, confidence_score := a.confidence_score,
    metadata := a.metadata }

/-- State of the audit logger: the in-memory trail (insertion order),
whether the SQLite connection exists, and the database rows (insertion
order). -/
structure AuditState where
  mem : List AuditEvent
  conn : Bool
  db : List AuditEvent
deriving Repr, DecidableEq

/-- A fresh `AuditLogger` (empty in-memory trail, empty audit table). -/
def initAudit (conn : Bool) : AuditState := ⟨[], conn, []⟩

/-- `AuditLogger.log_event`: append to the in-memory trail, and insert
into the database when the connection exists (with no connection the
insert is skipped with a warning). -/
def log_event (st : AuditState) (ts : Nat) (a : EventArgs) : AuditState :=
  let e := mkEvent ts a
  { mem := st.mem ++ [e], conn := st.conn,
    db := if st.conn then st.db ++ [e] else st.db }

/-- Timestamp order on audit events (`ORDER BY timestamp ASC`). -/
def evLe (a b : AuditEvent) : Prop := a.timestamp ≤ b.timestamp

instance : DecidableRel evLe := fun a b => Nat.decLe a.timestamp b.timestamp

instance : IsTotal AuditEvent evLe := ⟨fun a b => Nat.le_total a.timestamp b.timestamp⟩

instance : IsTrans AuditEvent evLe := ⟨fun _ _ _ h1 h2 => Nat.le_trans h1 h2⟩

/-- `DatabaseManager.get_audit_trail`: empty with no connection, else
the case's rows ordered by timestamp. -/
def db_get_audit_trail (st : AuditState) (cid : String) : List AuditEvent :=
  if st.conn then
    List.insertionSort evLe (st.db.filter (fun e => e.case_id == cid))
  else []

/-- `AuditLogger.get_audit_trail`: prefer the database trail, fall back
to the in-memory trail when the database returns nothing. -/
def get_audit_trail (st : AuditState) (cid : String) : List AuditEvent :=
  match db_get_audit_trail st cid with
  | [] => st.mem.filter (fun e => e.case_id == cid)
  | e :: es => e :: es

/-- A sequence of `log_event` calls against a fresh logger; each call
carries its clock reading. -/
def runAudit (conn : Bool) (calls : List (Nat × EventArgs)) : AuditState :=
  calls.foldl (fun st p => log_event st p.1 p.2) (initAudit conn)

/-! ## Pipeline orchestrator (`SARGenerator.generate`, `src/main.py`) -/

/-- One pipeline audit write (`self.audit.log_event(...)` in
`SARGenerator.generate`), identified by case, event type and step tag. -/
structure PipelineEvent where
  case_id : String
  event_type : String
  user_id : String
  step : String
deriving Repr, DecidableEq

/-- The external collaborators of one pipeline run: the md5 digest used
by the anonymizer, the vector-store queries, the regulatory data file
lookup, and the generation backend with its configured model name. -/
structure Externals where
  hash : String → String
  templateQuery : String → List (String × String)
  typologyQuery : String → Option (String × ℚ)
  regulatoryData : String → String
  llm : String → Except String String
  model : String

/-- `anonymization.anonymize_value`: `[PREFIX-md5hex6]`. -/
def anonymize_value (h : String → String) (v pre : String) : String :=
  "[" ++ pre ++ "-" ++ h v ++ "]"

/-- `anonymization.anonymize_case` (the rebuilt models re-validate, and
all masked values are non-blank, so validation is the identity here). -/
def anonymize_case (h : String → String) (c : CaseInput) : CaseInput :=
  { case_id := c.case_id,
    customer :=
      { name := anonymize_value h c.customer.name "NAME",
        account_number := anonymize_value h c.customer.account_number "ACCT",
        kyc_risk_rating := c.customer.kyc_risk_rating,
        occupation := c.customer.occupation,
        account_open_date := c.customer.account_open_date,
        expected_monthly_volume := c.customer.expected_monthly_volume,
        declared_income := c.customer.declared_income,
        address := if c.customer.address == "" then ""
                   else anonymize_value h c.customer.address "ADDR",
        pan_number := if c.customer.pan_number == "" then ""
                      else anonymize_value h c.customer.pan_number "PAN" },
    transactions := c.transactions.map (fun t =>
      { date := t.date, amount := t.amount, currency := t.currency,
        type := t.type, originator := anonymize_value h t.originator "ORIG",
        beneficiary := anonymize_value h t.beneficiary "BENF",
        description := t.description }),
    alert_reason := c.alert_reason,
    investigation_notes := c.investigation_notes,
    alert_date := c.alert_date,
    assigned_analyst := c.assigned_analyst }

/-- `DataParser.parse_case_input`: pydantic validation, then optional
anonymization. -/
def parse_case_input (h : String → String) (anonymizePii : Bool)
    (raw : RawCase) : Except String CaseInput :=
  match validateCase raw with
  | .error e => .error e
  | .ok c => .ok (if anonymizePii then anonymize_case h c else c)

/-- The explainability record built in step 6 of the pipeline. -/
structure ExplainabilityOutput where
  case_id : String
  why_suspicious : List String
  typology_matched : String
  typology_confidence : ℚ
  templates_used : List String
  model_reasoning : String
  rules_matched : List String
  volume_display : String
  volume_vs_expected : String
  risk_display : String
deriving Repr

/-- `SARGenerator.generate`: parse/validate, then the six audited
stages.  A validation failure propagates before the first audit write,
so a rejected case records no audit events at all. -/
def generate (ext : Externals) (anonymizePii : Bool) (raw : RawCase)
    (user_id : String) :
    Except String (SARNarrative × ExplainabilityOutput) × List PipelineEvent :=
  match parse_case_input ext.hash anonymizePii raw with
  | .error e => (.error e, [])
  | .ok c =>
    let ev1 : PipelineEvent := ⟨c.case_id, "data_input", user_id, "1_parse_input"⟩
    let stats := calculate_transaction_stats c.transactions
    let ev2 : PipelineEvent := ⟨c.case_id, "analysis", user_id, "2_transaction_stats"⟩
    let patterns := identify_patterns_text c stats
    let risk_score := calculate_risk_score patterns stats c
    let ev3 : PipelineEvent :=
      ⟨c.case_id, "pattern_detection", user_id, "3_pattern_detection"⟩
    let case_summary := build_case_summary c stats patterns
    let templates := ext.templateQuery case_summary
    let tpc := identify_typology ext.typologyQuery patterns c.alert_reason
    let ev4 : PipelineEvent := ⟨c.case_id, "rag_retrieval", user_id, "4_rag_retrieval"⟩
    let narrative := generate_narrative ext.llm ext.model c stats patterns tpc.1 risk_score
    let ev5 : PipelineEvent := ⟨c.case_id, "llm_generation", user_id, "5_llm_generation"⟩
    let volume_vs_expected :=
      if 0 < c.customer.expected_monthly_volume then
        fmtFixed1 (stats.total_volume / c.customer.expected_monthly_volume) ++ "x"
      else "N/A"
    let expl : ExplainabilityOutput :=
      { case_id := c.case_id, why_suspicious := narrative.red_flags,
        typology_matched := tpc.1, typology_confidence := tpc.2,
        templates_used := templates.map (fun t => t.1),
        model_reasoning := "Risk score " ++ intStr risk_score ++ "/100 based on " ++
          natDigitStr patterns.length ++ " patterns detected",
        rules_matched := patterns,
        volume_display := stats.currency ++ " " ++ fmtComma2 stats.total_volume,
        volume_vs_expected := volume_vs_expected,
        risk_display := intStr risk_score ++ "/100" }
    let ev6 : PipelineEvent := ⟨c.case_id, "explainability", user_id, "6_explainability"⟩
    (.ok (narrative, expl), [ev1, ev2, ev3, ev4, ev5, ev6])

/-! ## Concrete sample inputs used by witnesses and counterexamples -/

/-- A benign concrete transaction. -/
def sampleTxn : Transaction :=
  { date := "2024-01-01", amount := 1000, currency := "INR", type := "Transfer",
    originator := "OrigA", beneficiary := "BenA", description := "" }

/-- A low-risk concrete customer with no expected volume. -/
def sampleCustomer : CustomerInfo :=
  { name := "Test Name", account_number := "AC123", kyc_risk_rating := "Low",
    occupation := "Trader", account_open_date := "2020-01-01",
    expected_monthly_volume := 0, declared_income := 0, address := "",
    pan_number := "" }

/-- A minimal valid concrete case. -/
def sampleCase : CaseInput :=
  { case_id := "CASE-1", customer := sampleCustomer, transactions := [sampleTxn],
    alert_reason := "alert", investigation_notes := "", alert_date := "",
    assigned_analyst := "system" }

/-- Statistics of the minimal sample case. -/
def sampleStats : TransactionStats := calculate_transaction_stats [sampleTxn]

/-- A transaction of 950,000 (just below the structuring threshold). -/
def txn950 : Transaction :=
  { date := "2024-01-01", amount := 950000, currency := "INR",
    type := "Transfer", originator := "OrigA", beneficiary := "BenA",
    description := "" }

/-- Four transactions of 950,000 each with expected monthly volume 0,
low KYC rating and no declared income: the claim-C4 scenario shape. -/
def caseC4 : CaseInput :=
  { case_id := "CASE-4", customer := sampleCustomer,
    transactions := [txn950, txn950, txn950, txn950],
    alert_reason := "alert", investigation_notes := "", alert_date := "",
    assigned_analyst := "system" }

/-- Statistics of the claim-C4 scenario case. -/
def statsC4 : TransactionStats := calculate_transaction_stats caseC4.transactions



/-- A concrete narrative text containing all five section headers. -/
def fullHeaderText : String :=
  "I. SUMMARY OF SUSPICIOUS ACTIVITY alpha II. ACCOUNT AND CUSTOMER INFORMATION beta III. DESCRIPTION OF SUSPICIOUS ACTIVITY gamma IV. EXPLANATION OF SUSPICION delta V. CONCLUSION omega"

/-- A concrete narrative text containing no header marker. -/
def noHeaderText : String := "plain narrative text with no markers"

/-- Concrete external collaborators for witness runs. -/
def sampleExternals : Externals :=
  { hash := fun _ => "ABCDEF", templateQuery := fun _ => [],
    typologyQuery := fun _ => none, regulatoryData := fun _ => "",
    llm := fun _ => .error "unavailable", model := "llama3" }

/-- A concrete raw case with a single NaN-amount transaction. -/
def rawNan : RawCase :=
  { case_id := "CASE-N",
    customer := { name := "Cust", account_number := "AC9" },
    transactions := [{ date := "2024-01-01", amount := .nan, type := "Transfer",
                       originator := "O", beneficiary := "B" }],
    alert_reason := "alert" }

/-- A similarity store that returns nothing. -/
def storeNone : String → Option (String × ℚ) := fun _ => none

/-- A similarity store whose nearest typology is "structuring" at distance 1/2. -/
def storeStruct : String → Option (String × ℚ) := fun _ => some ("structuring", 1 / 2)

/-- A generation backend that always fails. -/
def llmDown : String → Except String String := fun _ => .error "backend down"

/-- A concrete sequence of audit calls with non-decreasing timestamps. -/
def callsW : List (Nat × EventArgs) :=
  [(1, { case_id := "case-9", event_type := "data_input" }),
   (2, { case_id := "case-9", event_type := "analysis" }),
   (3, { case_id := "other", event_type := "data_input" })]

/-! ## Theorems -/

/-- Bounds of the risk score: never negative, capped at 100. -/
theorem risk_score_eq (patterns : List String) (stats : TransactionStats)
    (c : CaseInput) :
    0 ≤ calculate_risk_score patterns stats c ∧
      calculate_risk_score patterns stats c ≤ 100 := by
  unfold calculate_risk_score
  refine ⟨le_min ?_ (by norm_num), min_le_right _ _⟩
  have h1 : (0 : ℤ) ≤ min ((patterns.length : ℤ) * 10) 40 :=
    le_min (by positivity) (by norm_num)
  have h2 : (0 : ℤ) ≤
      (if 0 < c.customer.expected_monthly_volume ∧ 0 < stats.total_volume then
        (let r := stats.total_volume / c.customer.expected_monthly_volume
         if 10 < r then 25 else if 5 < r then 15 else if 3 < r then 10 else 0)
       else 0 : ℤ) := by
    dsimp only
    split_ifs <;> norm_num
  have h3 : (0 : ℤ) ≤
      (if c.customer.kyc_risk_rating = "High" then 15
       else if c.customer.kyc_risk_rating = "Medium" then 5
       else if c.customer.kyc_risk_rating = "Low" then 0 else 5 : ℤ) := by
    split_ifs <;> norm_num
  have h4 : (0 : ℤ) ≤
      (if 20 < stats.unique_originators then 10
       else if 10 < stats.unique_originators then 5 else 0 : ℤ) := by
    split_ifs <;> norm_num
  linarith

/-- C1: for every findings list, statistics record and case,
`calculate_risk_score` returns an integer in [0, 100] (never negative;
in the rational-number model no NaN exists), and with statistics and
case fixed the score is monotonically non-decreasing in the number of
findings. -/
theorem C1_risk_score_bounded_monotone (patterns p₁ p₂ : List String)
    (stats : TransactionStats) (c : CaseInput) :
    (0 ≤ calculate_risk_score patterns stats c ∧
      calculate_risk_score patterns stats c ≤ 100) ∧
    (p₁.length ≤ p₂.length →
      calculate_risk_score p₁ stats c ≤ calculate_risk_score p₂ stats c) := by
  refine ⟨risk_score_eq patterns stats c, fun h => ?_⟩
  unfold calculate_risk_score
  have hb : min ((p₁.length : ℤ) * 10) 40 ≤ min ((p₂.length : ℤ) * 10) 40 := by
    have : (p₁.length : ℤ) * 10 ≤ (p₂.length : ℤ) * 10 := by
      have : (p₁.length : ℤ) ≤ (p₂.length : ℤ) := by exact_mod_cast h
      linarith
    exact min_le_min this le_rfl
  exact min_le_min (by linarith) le_rfl

/-- Witness for C1 at concrete inputs. -/
theorem C1_risk_score_bounded_monotone_witness :
    (([] : List String).length ≤ ["Structuring"].length) ∧
    ((0 ≤ calculate_risk_score [] sampleStats sampleCase ∧
        calculate_risk_score [] sampleStats sampleCase ≤ 100) ∧
      (([] : List String).length ≤ ["Structuring"].length →
        calculate_risk_score [] sampleStats sampleCase ≤
          calculate_risk_score ["Structuring"] sampleStats sampleCase)) :=
  ⟨by decide,
   C1_risk_score_bounded_monotone [] [] ["Structuring"] sampleStats sampleCase⟩

/-- C6: the statistics of the empty transaction list are the documented
degenerate record (all numeric fields zero, "N/A" date bounds, empty
type map) — the function is total, so it never raises and the guarded
division never divides by zero — and for every non-empty list the
average amount is the total absolute volume divided by the transaction
count. -/
theorem C6_stats_empty_and_average :
    calculate_transaction_stats [] =
      { total_transactions := 0, total_volume := 0, total_credits := 0,
        total_debits := 0, credit_count := 0, debit_count := 0, avg_amount := 0,
        max_amount := 0, min_amount := 0, date_range_start := "N/A",
        date_range_end := "N/A", date_range_days := 0, transaction_types := [],
        currency := "INR", unique_originators := 0, unique_beneficiaries := 0 } ∧
    ∀ ts : List Transaction, ts ≠ [] →
      (calculate_transaction_stats ts).avg_amount =
        (calculate_transaction_stats ts).total_volume /
          ((calculate_transaction_stats ts).total_transactions : ℚ) := by
  refine ⟨rfl, fun ts hts => ?_⟩
  match ts, hts with
  | t0 :: rest, _ =>
    simp only [calculate_transaction_stats, List.length_map]
    rw [if_pos (by simp)]

/-- Witness for C6 at a concrete non-empty list. -/
theorem C6_stats_empty_and_average_witness :
    ([sampleTxn] ≠ []) ∧
    ((calculate_transaction_stats [sampleTxn]).avg_amount =
      (calculate_transaction_stats [sampleTxn]).total_volume /
        ((calculate_transaction_stats [sampleTxn]).total_transactions : ℚ)) :=
  ⟨by simp, C6_stats_empty_and_average.2 [sampleTxn] (by simp)⟩

/-- Splitting the absolute-volume sum of a transaction list into the
credit sum and the absolute debit sum (zero amounts contribute zero). -/
theorem abs_sum_split (l : List Transaction) :
    (l.map (fun t => |t.amount|)).sum =
      ((l.filter (fun t => decide (0 < t.amount))).map (fun t => t.amount)).sum +
      ((l.filter (fun t => decide (t.amount < 0))).map (fun t => |t.amount|)).sum := by
  induction l with
  | nil => simp
  | cons t rest ih =>
    simp only [List.filter_cons, decide_eq_true_eq, List.map_cons, List.sum_cons]
    rcases lt_trichotomy t.amount 0 with h | h | h
    · rw [if_neg (by linarith), if_pos h]
      simp only [List.map_cons, List.sum_cons]
      rw [ih]; ring
    · rw [if_neg (by rw [h]; exact lt_irrefl 0), if_neg (by rw [h]; exact lt_irrefl 0)]
      rw [h, abs_zero, ih]; ring
    · rw [if_pos h, if_neg (by linarith)]
      simp only [List.map_cons, List.sum_cons]
      rw [ih, abs_of_pos h]; ring

/-- Credit and debit counts never exceed the list length, with equality
exactly when no amount is zero. -/
theorem count_split (l : List Transaction) :
    (l.filter (fun t => decide (0 < t.amount))).length +
        (l.filter (fun t => decide (t.amount < 0))).length ≤ l.length ∧
      ((l.filter (fun t => decide (0 < t.amount))).length +
          (l.filter (fun t => decide (t.amount < 0))).length < l.length ↔
        ∃ t ∈ l, t.amount = 0) := by
  induction l with
  | nil => simp
  | cons t rest ih =>
    simp only [List.filter_cons, decide_eq_true_eq, List.length_cons, List.mem_cons]
    rcases lt_trichotomy t.amount 0 with h | h | h
    · rw [if_neg (by linarith), if_pos h]
      simp only [List.length_cons]
      refine ⟨by omega, ?_, ?_⟩
      · intro hlt
        rcases ih.2.1 (by omega) with ⟨u, hu, hu0⟩
        exact ⟨u, Or.inr hu, hu0⟩
      · rintro ⟨u, hu | hu, hu0⟩
        · subst hu; linarith
        · have := ih.2.2 ⟨u, hu, hu0⟩; omega
    · rw [if_neg (by rw [h]; exact lt_irrefl 0), if_neg (by rw [h]; exact lt_irrefl 0)]
      refine ⟨by omega, ?_, ?_⟩
      · intro _; exact ⟨t, Or.inl rfl, h⟩
      · intro _; omega
    · rw [if_pos h, if_neg (by linarith)]
      simp only [List.length_cons]
      refine ⟨by omega, ?_, ?_⟩
      · intro hlt
        rcases ih.2.1 (by omega) with ⟨u, hu, hu0⟩
        exact ⟨u, Or.inr hu, hu0⟩
      · rintro ⟨u, hu | hu, hu0⟩
        · subst hu; linarith
        · have := ih.2.2 ⟨u, hu, hu0⟩; omega

/-- C10: for every transaction list the computed statistics satisfy
total_volume = total_credits + total_debits and
credit_count + debit_count ≤ total_transactions, the inequality being
strict exactly when some transaction has amount 0 (a zero-amount
transaction counts as neither credit nor debit). -/
theorem C10_stats_volume_count_algebra (ts : List Transaction) :
    (calculate_transaction_stats ts).total_volume =
        (calculate_transaction_stats ts).total_credits +
          (calculate_transaction_stats ts).total_debits ∧
      (calculate_transaction_stats ts).credit_count +
          (calculate_transaction_stats ts).debit_count ≤
        (calculate_transaction_stats ts).total_transactions ∧
      ((calculate_transaction_stats ts).credit_count +
            (calculate_transaction_stats ts).debit_count <
          (calculate_transaction_stats ts).total_transactions ↔
        ∃ t ∈ ts, t.amount = 0) := by
  match ts with
  | [] => simp [calculate_transaction_stats]
  | t0 :: rest =>
    have habs := abs_sum_split (t0 :: rest)
    have hcnt := count_split (t0 :: rest)
    simp only [calculate_transaction_stats, List.map_map]
    refine ⟨?_, hcnt.1, hcnt.2⟩
    simpa using habs

/-- The structuring filter condition equals the strict open band
(800,000, 1,000,000): the `0 <` conjunct is implied, and
`threshold * 0.8 = 800000` exactly in the rational model. -/
theorem nearThreshold_iff (t : Transaction) :
    nearThresholdTxn t = decide (800000 < t.amount ∧ t.amount < 1000000) := by
  unfold nearThresholdTxn
  rw [decide_eq_decide]
  have h8 : (1000000 : ℚ) * (8 / 10) = 800000 := by norm_num
  rw [h8]
  constructor
  · rintro ⟨h1, h2, h3⟩; exact ⟨h3, h2⟩
  · rintro ⟨h1, h2⟩; exact ⟨by linarith, h2, h1⟩

/-- A structuring finding is emitted iff at least 3 transactions pass
the near-threshold filter. -/
theorem structuring_mem (c : CaseInput) (stats : TransactionStats) :
    (∃ n, Finding.structuring n ∈ identify_patterns c stats) ↔
      3 ≤ (c.transactions.filter nearThresholdTxn).length := by
  rcases hts : c.transactions with _ | ⟨t0, rest⟩
  · simp [identify_patterns, hts]
  · simp only [identify_patterns, hts]
    simp only [List.mem_append]
    constructor
    · rintro ⟨n, hn⟩
      rcases hn with hn | hn
      · by_cases h3 : 3 ≤ ((t0 :: rest).filter nearThresholdTxn).length
        · exact h3
        · rw [if_neg h3] at hn; simp at hn
      · exfalso
        split_ifs at hn <;> simp_all
    · intro h3
      exact ⟨((t0 :: rest).filter nearThresholdTxn).length,
        Or.inl (by rw [if_pos h3]; simp)⟩

/-- C3: `identify_patterns` emits the structuring finding iff at least
3 transactions have amount strictly between 800,000 and 1,000,000; the
counted set is the strict open band, so amounts exactly 800,000 or
exactly 1,000,000 never count toward the threshold. -/
theorem C3_structuring_iff_strict_band (c : CaseInput) (stats : TransactionStats) :
    ((∃ n, Finding.structuring n ∈ identify_patterns c stats) ↔
      3 ≤ (c.transactions.filter
        (fun t => decide (800000 < t.amount ∧ t.amount < 1000000))).length) ∧
    c.transactions.filter nearThresholdTxn =
      c.transactions.filter
        (fun t => decide (800000 < t.amount ∧ t.amount < 1000000)) := by
  have hfeq : c.transactions.filter nearThresholdTxn =
      c.transactions.filter
        (fun t => decide (800000 < t.amount ∧ t.amount < 1000000)) :=
    List.filter_congr (fun t _ => nearThreshold_iff t)
  exact ⟨by rw [← hfeq]; exact structuring_mem c stats, hfeq⟩

/-- The keyword-boost loop leaves the confidence unchanged when no
table entry carries the retrieved typology: keyword matches for other
typologies never change the result. -/
theorem boost_fold_not_mem (text ty : String) (m : List (String × List String))
    (conf : ℚ) (h : ∀ tk ∈ m, tk.1 ≠ ty) :
    m.foldl (fun conf tk =>
      if anyKeywordIn text tk.2 then
        (if tk.1 == ty then min 100 (conf + 15) else conf)
      else conf) conf = conf := by
  induction m generalizing conf with
  | nil => rfl
  | cons tk rest ih =>
    have hne : (tk.1 == ty) = false := by
      simp only [beq_eq_false_iff_ne]; exact h tk (List.mem_cons_self tk rest)
    rw [List.foldl_cons]
    have hstep :
        (if anyKeywordIn text tk.2 then
          (if tk.1 == ty then min 100 (conf + 15) else conf)
         else conf) = conf := by
      simp [hne]
    rw [hstep]
    exact ih conf (fun u hu => h u (List.mem_cons_of_mem tk hu))

/-- Closed form of the keyword-boost loop over a table with distinct
keys: one +15 boost (clamped at 100) exactly when the entry of the
retrieved typology has a keyword hit. -/
theorem boost_fold_closed (text ty : String) (m : List (String × List String))
    (conf : ℚ) (h : (m.map Prod.fst).Nodup) :
    m.foldl (fun conf tk =>
      if anyKeywordIn text tk.2 then
        (if tk.1 == ty then min 100 (conf + 15) else conf)
      else conf) conf =
      if m.any (fun tk => tk.1 == ty && anyKeywordIn text tk.2) then
        min 100 (conf + 15)
      else conf := by
  induction m generalizing conf with
  | nil => simp
  | cons tk rest ih =>
    rw [List.map_cons] at h
    rcases List.nodup_cons.mp h with ⟨hhd, htl⟩
    rw [List.foldl_cons, List.any_cons]
    by_cases hk : tk.1 = ty
    · by_cases ha : anyKeywordIn text tk.2 = true
      · have hrest : ∀ u ∈ rest, u.1 ≠ ty := by
          intro u hu hEq
          apply hhd
          rw [hk, ← hEq]
          exact List.mem_map_of_mem Prod.fst hu
        rw [if_pos ha, if_pos (show (tk.1 == ty) = true by simp [hk]),
          boost_fold_not_mem text ty rest _ hrest, if_pos (by simp [hk, ha])]
      · have ha' : anyKeywordIn text tk.2 = false := by simpa using ha
        rw [if_neg ha, ih conf htl, ha', Bool.and_false, Bool.false_or]
    · have hk' : (tk.1 == ty) = false := by simp [hk]
      have hstep :
          (if anyKeywordIn text tk.2 = true then
            if (tk.1 == ty) = true then min 100 (conf + 15) else conf
           else conf) = conf := by
        rw [hk']
        simp
      rw [hstep, ih conf htl, hk', Bool.false_and, Bool.false_or]

/-- When the store returns a nearest typology, `identify_typology`
returns that typology with the distance-based confidence, boosted by
+15 (clamped) exactly when the keyword table entry of that same
typology hits the combined lowercased text. -/
theorem identify_typology_some (store : String → Option (String × ℚ))
    (patterns : List String) (alert_reason ty : String) (d : ℚ)
    (hq : store ("Patterns: " ++ joinWith "; " patterns ++ ". Alert: " ++
      alert_reason) = some (ty, d)) :
    identify_typology store patterns alert_reason =
      (ty,
        if keywordBoosts ty (pyLower (alert_reason ++ " " ++ joinWith " " patterns)) then
          min 100 (max 0 (min 100 ((1 - d) * 100)) + 15)
        else max 0 (min 100 ((1 - d) * 100))) := by
  have hnodup : (keyword_map.map Prod.fst).Nodup := by decide
  simp only [identify_typology]
  rw [hq]
  simp only []
  rw [boost_fold_closed (pyLower (alert_reason ++ " " ++ joinWith " " patterns)) ty
    keyword_map (max 0 (min 100 ((1 - d) * 100))) hnodup]
  rfl

/-- C5: the +15 keyword confidence boost applies only when a
keyword-table typology whose keywords occur in the lowercased
concatenation of alert reason and findings equals the retrieved
typology; a keyword match for a different typology changes neither the
typology nor the confidence, and the returned confidence always lies
in [0, 100] (with ("unknown", 0) on an empty store result). -/
theorem C5_typology_keyword_boost (store : String → Option (String × ℚ))
    (patterns : List String) (alert_reason : String) :
    (store ("Patterns: " ++ joinWith "; " patterns ++ ". Alert: " ++
        alert_reason) = none →
      identify_typology store patterns alert_reason = ("unknown", 0)) ∧
    (∀ (ty : String) (d : ℚ),
      store ("Patterns: " ++ joinWith "; " patterns ++ ". Alert: " ++
        alert_reason) = some (ty, d) →
      identify_typology store patterns alert_reason =
        (ty,
          if keywordBoosts ty (pyLower (alert_reason ++ " " ++ joinWith " " patterns)) then
            min 100 (max 0 (min 100 ((1 - d) * 100)) + 15)
          else max 0 (min 100 ((1 - d) * 100)))) ∧
    (0 ≤ (identify_typology store patterns alert_reason).2 ∧
      (identify_typology store patterns alert_reason).2 ≤ 100) := by
  refine ⟨fun hq => ?_, fun ty d hq => identify_typology_some store patterns alert_reason ty d hq, ?_⟩
  · simp only [identify_typology]
    rw [hq]
  · rcases hq : store ("Patterns: " ++ joinWith "; " patterns ++ ". Alert: " ++
        alert_reason) with _ | ⟨ty, d⟩
    · have := (by simp only [identify_typology]; rw [hq] :
        identify_typology store patterns alert_reason = ("unknown", 0))
      rw [this]
      norm_num
    · rw [identify_typology_some store patterns alert_reason ty d hq]
      have hb0 : (0 : ℚ) ≤ max 0 (min 100 ((1 - d) * 100)) := le_max_left 0 _
      have hb100 : max 0 (min 100 ((1 - d) * 100)) ≤ 100 :=
        max_le (by norm_num) (min_le_left _ _)
      by_cases hkb :
          keywordBoosts ty (pyLower (alert_reason ++ " " ++ joinWith " " patterns)) = true
      · rw [if_pos hkb]
        exact ⟨le_min (by norm_num) (by linarith), min_le_left _ _⟩
      · rw [if_neg hkb]
        exact ⟨hb0, hb100⟩

/-- Every string contains itself. -/
theorem contains_refl (s : String) : strContainsSub s s :=
  ⟨[], [], by simp⟩

/-- Containment is preserved by prepending. -/
theorem contains_left (t : String) {s sub : String} (h : strContainsSub s sub) :
    strContainsSub (t ++ s) sub := by
  obtain ⟨a, b, hab⟩ := h
  exact ⟨t.data ++ a, b, by rw [String.data_append, hab]; simp [List.append_assoc]⟩

/-- Containment is preserved by appending. -/
theorem contains_right {s sub : String} (t : String) (h : strContainsSub s sub) :
    strContainsSub (s ++ t) sub := by
  obtain ⟨a, b, hab⟩ := h
  exact ⟨a, b ++ t.data, by rw [String.data_append, hab]; simp [List.append_assoc]⟩

/-- C7: whenever the generation backend fails on the built prompt,
`generate_narrative` returns the deterministic fallback narrative, and
that fallback contains the customer name, the account number, the
formatted total volume and the typology string verbatim. -/
theorem C7_fallback_on_llm_failure (llm : String → Except String String)
    (model : String) (c : CaseInput) (stats : TransactionStats)
    (patterns : List String) (typology : String) (risk_score : ℤ) (e : String)
    (hfail : llm (build_prompt c patterns typology risk_score) = .error e) :
    (generate_narrative llm model c stats patterns typology risk_score).narrative_text =
      fallback_narrative c stats patterns typology ∧
    strContainsSub (fallback_narrative c stats patterns typology) c.customer.name ∧
    strContainsSub (fallback_narrative c stats patterns typology)
      c.customer.account_number ∧
    strContainsSub (fallback_narrative c stats patterns typology)
      (fmtComma2 stats.total_volume) ∧
    strContainsSub (fallback_narrative c stats patterns typology) typology := by
  refine ⟨?_, ?_, ?_, ?_, ?_⟩
  · simp only [generate_narrative]
    rw [hfail]
  · simp only [fallback_narrative]
    exact contains_right _ (contains_right _ (contains_right _ (contains_right _ (contains_right _ (contains_right _ (contains_right _ (contains_right _ (contains_right _ (contains_right _ (contains_right _ (contains_right _ (contains_right _ (contains_right _ (contains_right _ (contains_right _ (contains_right _ (contains_right _ (contains_right _ (contains_right _ (contains_right _ (contains_right _ (contains_right _ (contains_right _ (contains_right _ (contains_right _ (contains_right _ (contains_right _ (contains_right _ (contains_right _ (contains_right _ (contains_left _ (contains_refl _))))))))))))))))))))))))))))))))
  · simp only [fallback_narrative]
    exact contains_right _ (contains_right _ (contains_right _ (contains_right _ (contains_right _ (contains_right _ (contains_right _ (contains_right _ (contains_right _ (contains_right _ (contains_right _ (contains_right _ (contains_right _ (contains_right _ (contains_right _ (contains_right _ (contains_right _ (contains_right _ (contains_right _ (contains_right _ (contains_right _ (contains_right _ (contains_right _ (contains_right _ (contains_right _ (contains_right _ (contains_right _ (contains_right _ (contains_right _ (contains_left _ (contains_refl _))))))))))))))))))))))))))))))
  · simp only [fallback_narrative]
    exact contains_right _ (contains_right _ (contains_right _ (contains_right _ (contains_right _ (contains_right _ (contains_right _ (contains_right _ (contains_right _ (contains_right _ (contains_right _ (contains_right _ (contains_right _ (contains_left _ (contains_refl _))))))))))))))
  · simp only [fallback_narrative]
    exact contains_right _ (contains_left _ (contains_refl _))

/-- C8: `_parse_narrative` yields exactly the five keys I..V when every
header marker matches in the text, collapses to the single key "I"
bound to the whole stripped text when no marker matches, and never
returns an empty section map. -/
theorem C8_parse_sections (text : String) :
    ((∀ h ∈ sectionHeaders, findHeader h.2 text.data ≠ none) →
      (parse_narrative text).map Prod.fst = ["I", "II", "III", "IV", "V"]) ∧
    ((∀ h ∈ sectionHeaders, findHeader h.2 text.data = none) →
      parse_narrative text = [("I", pyStrip text)]) ∧
    parse_narrative text ≠ [] := by
  refine ⟨?_, ?_, ?_⟩
  · intro hall
    have h1 := hall ("I", ["I.", "SUMMARY", "OF", "SUSPICIOUS", "ACTIVITY"])
      (by simp [sectionHeaders])
    have h2 := hall ("II", ["II.", "ACCOUNT", "AND", "CUSTOMER", "INFORMATION"])
      (by simp [sectionHeaders])
    have h3 := hall ("III", ["III.", "DESCRIPTION", "OF", "SUSPICIOUS", "ACTIVITY"])
      (by simp [sectionHeaders])
    have h4 := hall ("IV", ["IV.", "EXPLANATION", "OF", "SUSPICION"])
      (by simp [sectionHeaders])
    have h5 := hall ("V", ["V.", "CONCLUSION"]) (by simp [sectionHeaders])
    rcases e1 : findHeader ["I.", "SUMMARY", "OF", "SUSPICIOUS", "ACTIVITY"] text.data
      with _ | p1
    · exact absurd e1 h1
    rcases e2 : findHeader ["II.", "ACCOUNT", "AND", "CUSTOMER", "INFORMATION"] text.data
      with _ | p2
    · exact absurd e2 h2
    rcases e3 : findHeader ["III.", "DESCRIPTION", "OF", "SUSPICIOUS", "ACTIVITY"] text.data
      with _ | p3
    · exact absurd e3 h3
    rcases e4 : findHeader ["IV.", "EXPLANATION", "OF", "SUSPICION"] text.data
      with _ | p4
    · exact absurd e4 h4
    rcases e5 : findHeader ["V.", "CONCLUSION"] text.data with _ | p5
    · exact absurd e5 h5
    simp [parse_narrative, parseSections, sectionHeaders, e1, e2, e3, e4, e5]
  · intro hall
    have h1 := hall ("I", ["I.", "SUMMARY", "OF", "SUSPICIOUS", "ACTIVITY"])
      (by simp [sectionHeaders])
    have h2 := hall ("II", ["II.", "ACCOUNT", "AND", "CUSTOMER", "INFORMATION"])
      (by simp [sectionHeaders])
    have h3 := hall ("III", ["III.", "DESCRIPTION", "OF", "SUSPICIOUS", "ACTIVITY"])
      (by simp [sectionHeaders])
    have h4 := hall ("IV", ["IV.", "EXPLANATION", "OF", "SUSPICION"])
      (by simp [sectionHeaders])
    have h5 := hall ("V", ["V.", "CONCLUSION"]) (by simp [sectionHeaders])
    simp [parse_narrative, parseSections, sectionHeaders, h1, h2, h3, h4, h5]
  · rcases hp : parseSections sectionHeaders text.data with _ | ⟨a, as⟩ <;>
      simp [parse_narrative, hp]

/-- Witness for C8 at two concrete texts. -/
theorem C8_witness :
    (∀ h ∈ sectionHeaders, findHeader h.2 fullHeaderText.data ≠ none) ∧
    (parse_narrative fullHeaderText).map Prod.fst = ["I", "II", "III", "IV", "V"] ∧
    (∀ h ∈ sectionHeaders, findHeader h.2 noHeaderText.data = none) ∧
    parse_narrative noHeaderText = [("I", pyStrip noHeaderText)] :=
  ⟨by decide, (C8_parse_sections fullHeaderText).1 (by decide), by decide,
    (C8_parse_sections noHeaderText).2.1 (by decide)⟩

/-- State of the audit logger after a sequence of `log_event` calls:
events append to the in-memory trail, and to the database exactly when
the connection exists. -/
theorem foldl_log_event (calls : List (Nat × EventArgs)) (st : AuditState) :
    (calls.foldl (fun st p => log_event st p.1 p.2) st).mem =
        st.mem ++ calls.map (fun p => mkEvent p.1 p.2) ∧
      (calls.foldl (fun st p => log_event st p.1 p.2) st).conn = st.conn ∧
      (calls.foldl (fun st p => log_event st p.1 p.2) st).db =
        (if st.conn then st.db ++ calls.map (fun p => mkEvent p.1 p.2) else st.db) := by
  induction calls generalizing st with
  | nil => simp
  | cons p rest ih =>
    rcases ih (log_event st p.1 p.2) with ⟨hm, hc, hd⟩
    refine ⟨?_, ?_, ?_⟩
    · rw [List.foldl_cons, hm]
      simp [log_event]
    · rw [List.foldl_cons, hc]
      simp [log_event]
    · rw [List.foldl_cons, hd]
      rcases hcn : st.conn with _ | _ <;> simp [log_event, hcn]

/-- The logger state after a run against a fresh logger. -/
theorem runAudit_state (conn : Bool) (calls : List (Nat × EventArgs)) :
    (runAudit conn calls).mem = calls.map (fun p => mkEvent p.1 p.2) ∧
      (runAudit conn calls).conn = conn ∧
      (runAudit conn calls).db =
        (if conn then calls.map (fun p => mkEvent p.1 p.2) else []) := by
  have := foldl_log_event calls (initAudit conn)
  simpa [runAudit, initAudit] using this

/-- Filtering built events by case id commutes with building them. -/
theorem filter_map_mk (calls : List (Nat × EventArgs)) (cid : String) :
    (calls.map (fun p => mkEvent p.1 p.2)).filter (fun e => e.case_id == cid) =
      (calls.filter (fun p => p.2.case_id == cid)).map (fun p => mkEvent p.1 p.2) := by
  induction calls with
  | nil => rfl
  | cons p rest ih =>
    simp only [List.map_cons, List.filter_cons]
    rcases hc : (p.2.case_id == cid) with _ | _
    · have : ((mkEvent p.1 p.2).case_id == cid) = false := hc
      simp [this, ih, hc]
    · have : ((mkEvent p.1 p.2).case_id == cid) = true := hc
      simp [this, ih, hc]

/-- Monotone call timestamps give a timestamp-sorted in-memory trail. -/
theorem pairwise_mem (calls : List (Nat × EventArgs))
    (hmono : calls.Pairwise (fun p q => p.1 ≤ q.1)) :
    (calls.map (fun p => mkEvent p.1 p.2)).Pairwise evLe :=
  List.Pairwise.map (fun (p : Nat × EventArgs) => mkEvent p.1 p.2)
    (fun _ _ h => h) hmono

/-- With an empty database trail, `get_audit_trail` falls back to the
in-memory trail. -/
theorem get_trail_of_db_nil (st : AuditState) (cid : String)
    (h : db_get_audit_trail st cid = []) :
    get_audit_trail st cid = st.mem.filter (fun e => e.case_id == cid) := by
  unfold get_audit_trail
  rw [h]

/-- With a non-empty database trail, `get_audit_trail` returns it. -/
theorem get_trail_of_db_cons (st : AuditState) (cid : String) (x : AuditEvent)
    (xs : List AuditEvent) (h : db_get_audit_trail st cid = x :: xs) :
    get_audit_trail st cid = x :: xs := by
  unfold get_audit_trail
  rw [h]

/-- C9: after any sequence of `log_event` calls with non-decreasing
clock readings against a fresh logger, `get_audit_trail` for a case id
returns events in non-decreasing timestamp order, and its length
equals the number of `log_event` calls made for that case. -/
theorem C9_audit_trail_sorted_complete (conn : Bool)
    (calls : List (Nat × EventArgs)) (cid : String)
    (hmono : calls.Pairwise (fun p q => p.1 ≤ q.1)) :
    (get_audit_trail (runAudit conn calls) cid).Pairwise evLe ∧
    (get_audit_trail (runAudit conn calls) cid).length =
      (calls.filter (fun p => p.2.case_id == cid)).length := by
  rcases runAudit_state conn calls with ⟨hm, hc, hd⟩
  have hpw : ((runAudit conn calls).mem.filter
      (fun e => e.case_id == cid)).Pairwise evLe := by
    rw [hm]
    exact List.Pairwise.filter _ (pairwise_mem calls hmono)
  have hlen : ((runAudit conn calls).mem.filter
      (fun e => e.case_id == cid)).length =
      (calls.filter (fun p => p.2.case_id == cid)).length := by
    rw [hm, filter_map_mk, List.length_map]
  cases hconn : conn with
  | false =>
    subst hconn
    have hdb : db_get_audit_trail (runAudit false calls) cid = [] := by
      unfold db_get_audit_trail
      rw [hc]
      simp
    rw [get_trail_of_db_nil _ _ hdb]
    exact ⟨hpw, hlen⟩
  | true =>
    subst hconn
    have hdb : db_get_audit_trail (runAudit true calls) cid =
        List.insertionSort evLe
          ((calls.map (fun p => mkEvent p.1 p.2)).filter
            (fun e => e.case_id == cid)) := by
      unfold db_get_audit_trail
      rw [hc, hd]
      simp
    rcases hres : db_get_audit_trail (runAudit true calls) cid with _ | ⟨x, xs⟩
    · rw [get_trail_of_db_nil _ _ hres]
      exact ⟨hpw, hlen⟩
    · rw [get_trail_of_db_cons _ _ _ _ hres]
      rw [hdb] at hres
      constructor
      · rw [← hres]
        exact List.sorted_insertionSort evLe _
      · rw [← hres, List.length_insertionSort, filter_map_mk, List.length_map]

/-- A transaction that passes validation has a finite amount. -/
theorem validateTransaction_ok_finite (t : RawTransaction) (v : Transaction)
    (h : validateTransaction t = .ok v) : t.amount.isFinite = true := by
  unfold validateTransaction at h
  split_ifs at h
  rcases ht : t.amount with q | _ | _ | _ <;> rw [ht] at h <;>
    first | rfl | exact absurd h (by simp)

/-- If the whole list validates, every element validates. -/
theorem validateTransactions_ok (l : List RawTransaction)
    (l' : List Transaction) (h : validateTransactions l = .ok l') :
    ∀ t ∈ l, ∃ v, validateTransaction t = .ok v := by
  induction l generalizing l' with
  | nil => intro t ht; simp at ht
  | cons t0 rest ih =>
    intro t ht
    unfold validateTransactions at h
    rcases h0 : validateTransaction t0 with e | v0
    · rw [h0] at h; exact absurd h (by simp)
    · rw [h0] at h
      rcases hr : validateTransactions rest with e | vs
      · rw [hr] at h; exact absurd h (by simp)
      · rcases List.mem_cons.mp ht with h1 | h1
        · exact ⟨v0, h1 ▸ h0⟩
        · exact ih vs hr t h1

/-- C2: a case containing a transaction with a non-finite amount is
rejected by validation with a validation error before any stage runs,
and the pipeline records zero audit events for it. -/
theorem C2_nonfinite_amount_rejected_no_audit (ext : Externals)
    (anonymizePii : Bool) (raw : RawCase) (user_id : String)
    (h : ∃ t ∈ raw.transactions, t.amount.isFinite = false) :
    (∃ e, (generate ext anonymizePii raw user_id).1 = .error e) ∧
    (generate ext anonymizePii raw user_id).2 = [] := by
  have hval : ∃ e, validateCase raw = .error e := by
    rcases hv : validateCase raw with e | c
    · exact ⟨e, rfl⟩
    · exfalso
      obtain ⟨t, ht, hfin⟩ := h
      unfold validateCase at hv
      by_cases hb1 : pyBlank raw.case_id = true
      · rw [if_pos hb1] at hv
        exact absurd hv (by simp)
      rw [if_neg hb1] at hv
      rcases hcu : validateCustomer raw.customer with e | cust <;>
        rw [hcu] at hv <;> dsimp only at hv
      · exact absurd hv (by simp)
      by_cases hb2 : raw.transactions.isEmpty = true
      · rw [if_pos hb2] at hv
        exact absurd hv (by simp)
      rw [if_neg hb2] at hv
      rcases hts : validateTransactions raw.transactions with e | ts <;>
        rw [hts] at hv <;> dsimp only at hv
      · exact absurd hv (by simp)
      obtain ⟨v, hv'⟩ := validateTransactions_ok raw.transactions ts hts t ht
      rw [validateTransaction_ok_finite t v hv'] at hfin
      exact absurd hfin (by simp)
  obtain ⟨e, he⟩ := hval
  have hp : parse_case_input ext.hash anonymizePii raw = .error e := by
    unfold parse_case_input
    rw [he]
  refine ⟨⟨e, ?_⟩, ?_⟩ <;> (unfold generate; rw [hp])

/-- A round-number finding is emitted iff at least 3 transactions are
positive exact multiples of 10,000. -/
theorem roundNumber_mem (c : CaseInput) (stats : TransactionStats) :
    (∃ n, Finding.roundNumber n ∈ identify_patterns c stats) ↔
      3 ≤ (c.transactions.filter
        (fun t => decide (0 < t.amount ∧ ratMod t.amount 10000 = 0))).length := by
  rcases hts : c.transactions with _ | ⟨t0, rest⟩
  · simp [identify_patterns, hts]
  · simp only [identify_patterns, hts]
    simp only [List.mem_append]
    constructor
    · rintro ⟨n, hn⟩
      rcases hn with hn | hn
      · by_cases h3 : 3 ≤ ((t0 :: rest).filter
            (fun t => decide (0 < t.amount ∧ ratMod t.amount 10000 = 0))).length
        · exact h3
        · rw [if_neg h3] at hn
          simp at hn
      · exfalso
        split_ifs at hn <;> simp_all
    · intro h3
      refine ⟨((t0 :: rest).filter
        (fun t => decide (0 < t.amount ∧ ratMod t.amount 10000 = 0))).length,
        Or.inl (Or.inl (Or.inr ?_))⟩
      rw [if_pos h3]
      simp

/-- A list holding two distinct elements has length at least 2. -/
theorem two_le_length_of_mem_ne {α : Type} {a b : α} {l : List α}
    (ha : a ∈ l) (hb : b ∈ l) (hne : a ≠ b) : 2 ≤ l.length := by
  match l with
  | [] => simp at ha
  | [x] =>
    simp at ha hb
    exact absurd (ha.trans hb.symm) hne
  | x :: y :: rest => simp [List.length_cons]

/-- 950,000 is an exact multiple of 10,000 under the float modulo. -/
theorem ratMod_950000 : ratMod (950000 : ℚ) 10000 = 0 := by
  have hdiv : (950000 : ℚ) / 10000 = 95 := by norm_num
  have hfl : ratFloor ((950000 : ℚ) / 10000) = 95 := by
    rw [hdiv]
    unfold ratFloor
    rw [Rat.num_ofNat, Rat.den_ofNat]
    decide
  unfold ratMod
  rw [hfl]
  norm_num

/-- C4 (amended): for every case of four 950,000 transactions with
expected monthly volume 0, `identify_patterns` produces a structuring
finding and the risk score is at least 20 (the structuring and
round-number findings alone give a pattern term of at least 20; the
volume term is skipped since the expected volume is 0). -/
theorem C4_amended_structuring_and_score_ge20 (c : CaseInput)
    (hamts : c.transactions.map (fun t => t.amount) =
      [950000, 950000, 950000, 950000])
    (hexp : c.customer.expected_monthly_volume = 0) :
    (∃ n, Finding.structuring n ∈
      identify_patterns c (calculate_transaction_stats c.transactions)) ∧
    20 ≤ calculate_risk_score
      (identify_patterns_text c (calculate_transaction_stats c.transactions))
      (calculate_transaction_stats c.transactions) c := by
  rcases htx : c.transactions with _ | ⟨t1, _ | ⟨t2, _ | ⟨t3, _ | ⟨t4, _ | ⟨t5, tl⟩⟩⟩⟩⟩ <;>
    rw [htx] at hamts <;> simp at hamts
  obtain ⟨ha1, ha2, ha3, ha4⟩ := hamts
  have hn1 : nearThresholdTxn t1 = true := by
    simp only [nearThresholdTxn, ha1, decide_eq_true_eq]; norm_num
  have hn2 : nearThresholdTxn t2 = true := by
    simp only [nearThresholdTxn, ha2, decide_eq_true_eq]; norm_num
  have hn3 : nearThresholdTxn t3 = true := by
    simp only [nearThresholdTxn, ha3, decide_eq_true_eq]; norm_num
  have hn4 : nearThresholdTxn t4 = true := by
    simp only [nearThresholdTxn, ha4, decide_eq_true_eq]; norm_num
  have hnear : (([t1, t2, t3, t4] : List Transaction).filter
      nearThresholdTxn).length = 4 := by
    simp [List.filter_cons, hn1, hn2, hn3, hn4]
  have hp1 : 0 < t1.amount ∧ ratMod t1.amount 10000 = 0 := by
    rw [ha1]; exact ⟨by norm_num, ratMod_950000⟩
  have hp2 : 0 < t2.amount ∧ ratMod t2.amount 10000 = 0 := by
    rw [ha2]; exact ⟨by norm_num, ratMod_950000⟩
  have hp3 : 0 < t3.amount ∧ ratMod t3.amount 10000 = 0 := by
    rw [ha3]; exact ⟨by norm_num, ratMod_950000⟩
  have hp4 : 0 < t4.amount ∧ ratMod t4.amount 10000 = 0 := by
    rw [ha4]; exact ⟨by norm_num, ratMod_950000⟩
  have hroundf : (([t1, t2, t3, t4] : List Transaction).filter
      (fun t => decide (0 < t.amount ∧ ratMod t.amount 10000 = 0))).length = 4 := by
    simp [List.filter_cons, hp1.1, hp1.2, hp2.1, hp2.2, hp3.1, hp3.2, hp4.1, hp4.2]
  have hstruct := (structuring_mem c
      (calculate_transaction_stats [t1, t2, t3, t4])).mpr
    (by rw [htx, hnear]; norm_num)
  have hround := (roundNumber_mem c
      (calculate_transaction_stats [t1, t2, t3, t4])).mpr
    (by rw [htx, hroundf]; norm_num)
  refine ⟨hstruct, ?_⟩
  obtain ⟨n1, hs⟩ := hstruct
  obtain ⟨n2, hr⟩ := hround
  have hlen2 : 2 ≤ (identify_patterns c
      (calculate_transaction_stats [t1, t2, t3, t4])).length :=
    two_le_length_of_mem_ne hs hr (by simp)
  have hlen2t : 2 ≤ (identify_patterns_text c
      (calculate_transaction_stats [t1, t2, t3, t4])).length := by
    simpa [identify_patterns_text] using hlen2
  unfold calculate_risk_score
  have hvol : (0 : ℤ) ≤
      (if 0 < c.customer.expected_monthly_volume ∧
          0 < (calculate_transaction_stats [t1, t2, t3, t4]).total_volume then
        (let r := (calculate_transaction_stats [t1, t2, t3, t4]).total_volume /
            c.customer.expected_monthly_volume
         if 10 < r then 25 else if 5 < r then 15 else if 3 < r then 10 else 0)
       else 0 : ℤ) := by
    dsimp only
    split_ifs <;> norm_num
  have hbase : (20 : ℤ) ≤ min
      (((identify_patterns_text c
        (calculate_transaction_stats [t1, t2, t3, t4])).length : ℤ) * 10) 40 := by
    refine le_min ?_ (by norm_num)
    have h2 : (2 : ℤ) ≤ ((identify_patterns_text c
        (calculate_transaction_stats [t1, t2, t3, t4])).length : ℤ) := by
      exact_mod_cast hlen2t
    linarith
  have hkyc : (0 : ℤ) ≤
      (if c.customer.kyc_risk_rating = "High" then 15
       else if c.customer.kyc_risk_rating = "Medium" then 5
       else if c.customer.kyc_risk_rating = "Low" then 0 else 5 : ℤ) := by
    split_ifs <;> norm_num
  have hcp : (0 : ℤ) ≤
      (if 20 < (calculate_transaction_stats [t1, t2, t3, t4]).unique_originators
       then 10
       else if 10 < (calculate_transaction_stats [t1, t2, t3, t4]).unique_originators
       then 5 else 0 : ℤ) := by
    split_ifs <;> norm_num
  exact le_min (by linarith) (by norm_num)

/-- The C4 scenario case has a single distinct originator. -/
theorem statsC4_unique_originators : statsC4.unique_originators = 1 := by
  simp [statsC4, caseC4, txn950, calculate_transaction_stats, pyDistinct, dedupAux]

/-- The C4 scenario case triggers exactly the structuring and
round-number findings. -/
theorem patternsC4 : identify_patterns caseC4 statsC4 =
    [.structuring 4, .roundNumber 4] := by
  have hhr : ¬(("Transfer" = "SWIFT" ∨ "Transfer" = "Wire Transfer") ∨
      "Transfer" = "Hawala") := by decide
  norm_num [identify_patterns, caseC4, txn950, sampleCustomer, statsC4,
    calculate_transaction_stats, nearThresholdTxn, pyDistinct, dedupAux,
    dayCredits, dayDebits, ratMod_950000, List.filter_cons, hhr]

/-- C4 (counterexample): a concrete case of four 950,000 transactions
with expected monthly volume 0, low KYC rating, benign transfer type
and one originator fits the claimed shape, produces the structuring
finding, but scores exactly 20 — refuting the claimed score of at
least 40. -/
theorem C4_counterexample_score_is_20 :
    (caseC4.transactions.map (fun t => t.amount) =
        [950000, 950000, 950000, 950000] ∧
      caseC4.customer.expected_monthly_volume = 0) ∧
    (∃ n, Finding.structuring n ∈ identify_patterns caseC4 statsC4) ∧
    calculate_risk_score (identify_patterns_text caseC4 statsC4) statsC4 caseC4 = 20 ∧
    ¬ (40 ≤ calculate_risk_score (identify_patterns_text caseC4 statsC4)
        statsC4 caseC4) := by
  have htext : identify_patterns_text caseC4 statsC4 =
      [Finding.render (.structuring 4), Finding.render (.roundNumber 4)] := by
    unfold identify_patterns_text
    rw [patternsC4]
    rfl
  have hL1 : ¬("Low" = "High") := by decide
  have hL2 : ¬("Low" = "Medium") := by decide
  have hscore : calculate_risk_score (identify_patterns_text caseC4 statsC4)
      statsC4 caseC4 = 20 := by
    rw [htext]
    unfold calculate_risk_score
    norm_num [caseC4, sampleCustomer, statsC4_unique_originators, hL1, hL2]
  refine ⟨⟨by simp [caseC4, txn950], by simp [caseC4, sampleCustomer]⟩,
    ⟨4, by rw [patternsC4]; simp⟩, hscore, by rw [hscore]; norm_num⟩

/-- Witness for C2 at a concrete NaN-amount case. -/
theorem C2_witness :
    (∃ t ∈ rawNan.transactions, t.amount.isFinite = false) ∧
    ((∃ e, (generate sampleExternals true rawNan "system").1 = .error e) ∧
      (generate sampleExternals true rawNan "system").2 = []) :=
  ⟨by decide,
    C2_nonfinite_amount_rejected_no_audit sampleExternals true rawNan "system"
      (by decide)⟩

/-- Witness for the amended C4 at the concrete scenario case. -/
theorem C4_witness :
    (caseC4.transactions.map (fun t => t.amount) =
        [950000, 950000, 950000, 950000] ∧
      caseC4.customer.expected_monthly_volume = 0) ∧
    ((∃ n, Finding.structuring n ∈
        identify_patterns caseC4 (calculate_transaction_stats caseC4.transactions)) ∧
      20 ≤ calculate_risk_score
        (identify_patterns_text caseC4 (calculate_transaction_stats caseC4.transactions))
        (calculate_transaction_stats caseC4.transactions) caseC4) :=
  ⟨⟨by simp [caseC4, txn950], by simp [caseC4, sampleCustomer]⟩,
    C4_amended_structuring_and_score_ge20 caseC4 (by simp [caseC4, txn950])
      (by simp [caseC4, sampleCustomer])⟩

/-- Witness for C5 at two concrete stores. -/
theorem C5_witness :
    (storeNone ("Patterns: " ++ joinWith "; " [] ++ ". Alert: " ++ "x") = none) ∧
    identify_typology storeNone [] "x" = ("unknown", 0) ∧
    (storeStruct ("Patterns: " ++ joinWith "; " [] ++ ". Alert: " ++ "x") =
      some ("structuring", 1 / 2)) ∧
    identify_typology storeStruct [] "x" =
      ("structuring",
        if keywordBoosts "structuring" (pyLower ("x" ++ " " ++ joinWith " " [])) then
          min 100 (max 0 (min 100 ((1 - 1 / 2) * 100)) + 15)
        else max 0 (min 100 ((1 - 1 / 2) * 100))) :=
  ⟨rfl, (C5_typology_keyword_boost storeNone [] "x").1 rfl, rfl,
    (C5_typology_keyword_boost storeStruct [] "x").2.1 "structuring" (1 / 2) rfl⟩

/-- Witness for C7 at a failing backend and concrete case. -/
theorem C7_witness :
    (llmDown (build_prompt sampleCase [] "structuring" 20) = .error "backend down") ∧
    ((generate_narrative llmDown "llama3" sampleCase sampleStats [] "structuring"
        20).narrative_text = fallback_narrative sampleCase sampleStats [] "structuring" ∧
      strContainsSub (fallback_narrative sampleCase sampleStats [] "structuring")
        sampleCase.customer.name ∧
      strContainsSub (fallback_narrative sampleCase sampleStats [] "structuring")
        sampleCase.customer.account_number ∧
      strContainsSub (fallback_narrative sampleCase sampleStats [] "structuring")
        (fmtComma2 sampleStats.total_volume) ∧
      strContainsSub (fallback_narrative sampleCase sampleStats [] "structuring")
        "structuring") :=
  ⟨rfl, C7_fallback_on_llm_failure llmDown "llama3" sampleCase sampleStats []
    "structuring" 20 "backend down" rfl⟩

/-- Witness for C9 at a concrete call sequence. -/
theorem C9_witness :
    callsW.Pairwise (fun p q => p.1 ≤ q.1) ∧
    ((get_audit_trail (runAudit true callsW) "case-9").Pairwise evLe ∧
      (get_audit_trail (runAudit true callsW) "case-9").length =
        (callsW.filter (fun p => p.2.case_id == "case-9")).length) :=
  ⟨by decide,
    C9_audit_trail_sorted_complete true callsW "case-9" (by decide)⟩

end SAR
